import Mathlib

/-!
Verification of the Location-Privacy teaching system's frontend datamodel
and state logic against its natural-language specification.

The definitions below are shallow embeddings of the TypeScript sources:
numbers are modelled as rationals, timestamps as integers (the value of
new Date(ts).getTime()), records as association lists, and optional
fields as Option.  Each definition's doc comment names the source
function or component it embeds.
-/

namespace LocationPrivacy

/-- The location_type union from src/frontend/src/services/api.ts
(interface LocationPoint): the five string literals home, work, leisure,
transit, frequent.  The string "other" is not a member of the union; it
only appears in MapView as a rendering default for a missing value. -/
inductive LocationType
  | home
  | work
  | leisure
  | transit
  | frequent
deriving DecidableEq

/-- String value of a LocationType member, as it appears in the union in
api.ts. -/
def LocationType.label : LocationType → String
  | .home => "home"
  | .work => "work"
  | .leisure => "leisure"
  | .transit => "transit"
  | .frequent => "frequent"

/-- LocationPoint from api.ts: lat and lon are numbers, timestamp is a
string parsed to epoch milliseconds wherever it is used numerically
(modelled directly as the integer getTime value), and location_type is
an optional member of the five-element union. -/
structure LocationPoint where
  lat : ℚ
  lon : ℚ
  timestamp : ℤ
  location_type : Option LocationType
deriving DecidableEq

/-- UserProfile from api.ts. -/
structure UserProfile where
  user_id : String
  locations : List LocationPoint
  home_location : Option LocationPoint := none
  work_location : Option LocationPoint := none
deriving DecidableEq

/-- Dataset from api.ts. -/
structure Dataset where
  users : List UserProfile
  generated_at : String
  city : String
deriving DecidableEq

/-- RiskScore from api.ts. -/
structure RiskScore where
  overall_risk : ℚ
  uniqueness_score : ℚ
  reidentification_probability : ℚ
  home_inferred : Bool
  work_inferred : Bool
  unique_patterns : List String
  min_points_to_identify : ℤ
deriving DecidableEq

/-- AnonymizedDataset from api.ts (parameters modelled as an association
list of numeric values). -/
structure AnonymizedDataset where
  dataset : Dataset
  technique : String
  parameters : List (String × ℚ)
  utility_loss : ℚ
  new_risk_score : RiskScore
deriving DecidableEq

/-- RiskLevel from api.ts. -/
inductive RiskLevel
  | low
  | medium
  | high
deriving DecidableEq

/-- getRiskLevel from api.ts: low below 40, medium below 70, else high. -/
def getRiskLevel (risk : ℚ) : RiskLevel :=
  if risk < 40 then .low
  else if risk < 70 then .medium
  else .high

/-- getRiskColor from api.ts: green below 40, yellow below 70, else red. -/
def getRiskColor (risk : ℚ) : String :=
  if risk < 40 then "#22c55e"
  else if risk < 70 then "#eab308"
  else "#ef4444"

/-- The feature type tag MapView attaches to a rendered point:
loc.location_type with the string "other" substituted when the field is
absent (the expression loc.location_type || 'other'). -/
def featureType (p : LocationPoint) : String :=
  match p.location_type with
  | some t => t.label
  | none => "other"

/-- A LocationPoint whose optional location_type field is absent; such a
value inhabits the LocationPoint interface of api.ts. -/
def pointNoType : LocationPoint :=
  { lat := 51, lon := -114, timestamp := 0, location_type := none }

/-- C9: getRiskLevel and getRiskColor partition the risk scale by the
same thresholds 40 and 70: the green color coincides with level low
(risk < 40), yellow with medium (40 ≤ risk < 70), and red with high
(risk ≥ 70). -/
theorem riskLevel_color_partition_C9 (risk : ℚ) :
    (getRiskColor risk = "#22c55e" ↔ getRiskLevel risk = RiskLevel.low) ∧
    (getRiskColor risk = "#eab308" ↔ getRiskLevel risk = RiskLevel.medium) ∧
    (getRiskColor risk = "#ef4444" ↔ getRiskLevel risk = RiskLevel.high) ∧
    (getRiskLevel risk = RiskLevel.low ↔ risk < 40) ∧
    (getRiskLevel risk = RiskLevel.medium ↔ 40 ≤ risk ∧ risk < 70) ∧
    (getRiskLevel risk = RiskLevel.high ↔ 70 ≤ risk) := by
  unfold getRiskColor getRiskLevel
  split_ifs with h1 h2 <;>
    refine ⟨?_, ?_, ?_, ?_, ?_, ?_⟩ <;>
    simp_all [not_lt] <;>
    first
      | decide
      | linarith

/-- Closed instance of riskLevel_color_partition_C9 at risk = 50:
level medium holds because 40 ≤ 50 < 70. -/
theorem riskLevel_color_partition_C9_witness :
    getRiskLevel 50 = RiskLevel.medium :=
  (riskLevel_color_partition_C9 50).2.2.2.2.1.mpr (by norm_num)

/-- C3 counterexample: not every LocationPoint carries a present
location_type; the field is optional in api.ts and pointNoType omits
it. -/
theorem locationType_optional_C3_counterexample :
    ¬ ∀ p : LocationPoint, p.location_type.isSome = true := fun h => by
  simpa [pointNoType] using h pointNoType

/-- C3 (amended): location_type is optional; when present its value is
one of the five union members home, work, leisure, transit, frequent,
and the MapView renderer substitutes "other" for a missing value, so the
rendered type tag is always one of the six strings. -/
theorem locationType_enum_C3 :
    ∀ p : LocationPoint,
      featureType p ∈
        (["home", "work", "leisure", "transit", "frequent", "other"] :
          List String) := by
  intro p
  obtain ⟨la, lo, ts, oty⟩ := p
  rcases oty with _ | t
  · simp [featureType]
  · cases t <;> simp [featureType, LocationType.label]

/-- The App component state from
src/frontend/src/components/Map/TimelineSlider.tsx (function App): the
useState hooks relevant to dataset display.  riskScores is a record
keyed by user_id, modelled as an association list. -/
structure AppState where
  dataset : Option Dataset
  riskScores : List (String × RiskScore)
  anonymizedResult : Option AnonymizedDataset
  selectedUserId : Option String
  showHeatmap : Bool
  showAnonymized : Bool
  timeFilter : Option (ℤ × ℤ)

/-- The state update performed by handleGenerateDataset on a successful
generate response: the new dataset is stored and riskScores,
anonymizedResult, selectedUserId and showAnonymized are reset. -/
def handleGenerateDataset (s : AppState) (data : Dataset) : AppState :=
  { s with
    dataset := some data
    riskScores := []
    anonymizedResult := none
    selectedUserId := none
    showAnonymized := false }

/-- Locations of the user found by user_id in a dataset, or the empty
list when absent: the expression user?.locations || [] applied to
sourceDataset.users.find in getDisplayLocations. -/
def userLocations (d : Dataset) (uid : String) : List LocationPoint :=
  match d.users.find? (fun u => u.user_id == uid) with
  | some u => u.locations
  | none => []

/-- getDisplayLocations from the App component: empty when no user is
selected or no dataset exists; otherwise the selected user's locations
from the anonymized dataset when showAnonymized is on and an anonymized
result exists, and from the original dataset otherwise. -/
def getDisplayLocations (s : AppState) : List LocationPoint :=
  match s.selectedUserId, s.dataset with
  | some uid, some d =>
      let src : Dataset :=
        match s.showAnonymized, s.anonymizedResult with
        | true, some ar => ar.dataset
        | _, _ => d
      userLocations src uid
  | _, _ => []

/-- Average of the overall_risk values in the riskScores record, 0 when
the record is empty (the avgOriginalRisk expression in App). -/
def avgOriginalRisk (riskScores : List (String × RiskScore)) : ℚ :=
  let vals := riskScores.map (fun p => p.2.overall_risk)
  if 0 < vals.length then vals.sum / vals.length else 0

/-- The anonymized result's new overall risk, 0 when no result exists
(the avgAnonymizedRisk expression in App; the JavaScript || 0 fallback
maps the number 0 to itself, so it coincides with this model on
numbers). -/
def avgAnonymizedRisk : Option AnonymizedDataset → ℚ
  | some ar => ar.new_risk_score.overall_risk
  | none => 0

/-- The riskReduction expression in App: the relative risk reduction in
percent, guarded so the division only happens when the average original
risk is positive. -/
def riskReduction (riskScores : List (String × RiskScore))
    (anonymizedResult : Option AnonymizedDataset) : ℚ :=
  if 0 < avgOriginalRisk riskScores then
    (avgOriginalRisk riskScores - avgAnonymizedRisk anonymizedResult) /
      avgOriginalRisk riskScores * 100
  else 0

/-- C5: after a completed dataset generation the App shows the new
dataset and every derived artifact is discarded: riskScores is empty,
the anonymized result is null, the user selection is cleared, and the
protected view is off. -/
theorem generate_resets_derived_C5 (s : AppState) (data : Dataset) :
    (handleGenerateDataset s data).dataset = some data ∧
    (handleGenerateDataset s data).riskScores = [] ∧
    (handleGenerateDataset s data).anonymizedResult = none ∧
    (handleGenerateDataset s data).selectedUserId = none ∧
    (handleGenerateDataset s data).showAnonymized = false :=
  ⟨rfl, rfl, rfl, rfl, rfl⟩

/-- C10: getDisplayLocations returns the empty list when no user is
selected or no dataset exists; otherwise it returns the selected user's
locations taken from the anonymized dataset exactly when the protected
view is on and an anonymized result exists, and from the original
dataset otherwise; a user_id absent from the source dataset yields the
empty list. -/
theorem displayLocations_source_C10 (s : AppState) :
    (s.selectedUserId = none → getDisplayLocations s = []) ∧
    (s.dataset = none → getDisplayLocations s = []) ∧
    (∀ uid d ar, s.selectedUserId = some uid → s.dataset = some d →
      s.showAnonymized = true → s.anonymizedResult = some ar →
      getDisplayLocations s = userLocations ar.dataset uid) ∧
    (∀ uid d, s.selectedUserId = some uid → s.dataset = some d →
      s.showAnonymized = false ∨ s.anonymizedResult = none →
      getDisplayLocations s = userLocations d uid) ∧
    (∀ d uid, (∀ u ∈ d.users, u.user_id ≠ uid) →
      userLocations d uid = []) := by
  obtain ⟨ds, rs, ar, sel, hm, sa, tf⟩ := s
  refine ⟨?_, ?_, ?_, ?_, ?_⟩
  · rintro rfl
    rcases ds with _ | d <;> rfl
  · rintro rfl
    rcases sel with _ | uid <;> rfl
  · rintro uid d a rfl rfl rfl rfl
    rfl
  · rintro uid d rfl rfl h
    rcases h with h | h
    · subst h
      rcases ar with _ | a <;> rfl
    · subst h
      rcases sa with _ | _ <;> rfl
  · intro d uid h
    have hfind : d.users.find? (fun u => u.user_id == uid) = none := by
      rw [List.find?_eq_none]
      intro u hu
      simpa using h u hu
    simp [userLocations, hfind]

/-- A concrete App state with no selected user, used to instantiate
displayLocations_source_C10. -/
def stateNoSelection : AppState :=
  { dataset := none
    riskScores := []
    anonymizedResult := none
    selectedUserId := none
    showHeatmap := false
    showAnonymized := false
    timeFilter := none }

/-- Closed instance of displayLocations_source_C10: with no selected
user the displayed locations are empty. -/
theorem displayLocations_source_C10_witness :
    getDisplayLocations stateNoSelection = [] :=
  (displayLocations_source_C10 stateNoSelection).1 rfl

/-- C1: under the data-model invariant that overall_risk values are
nonnegative, the App's riskReduction equals
(avgOriginalRisk - avgAnonymizedRisk) / avgOriginalRisk × 100 whenever
the average original risk is nonzero, and equals 0 when the average
original risk is 0 (the division is never performed on zero). -/
theorem riskReduction_formula_C1 (riskScores : List (String × RiskScore))
    (anonymizedResult : Option AnonymizedDataset)
    (hpos : ∀ p ∈ riskScores, 0 ≤ p.2.overall_risk) :
    (avgOriginalRisk riskScores = 0 →
      riskReduction riskScores anonymizedResult = 0) ∧
    (avgOriginalRisk riskScores ≠ 0 →
      riskReduction riskScores anonymizedResult =
        (avgOriginalRisk riskScores - avgAnonymizedRisk anonymizedResult) /
          avgOriginalRisk riskScores * 100) := by
  have havg : 0 ≤ avgOriginalRisk riskScores := by
    unfold avgOriginalRisk
    dsimp only
    split_ifs with h
    · apply div_nonneg
      · apply List.sum_nonneg
        intro x hx
        obtain ⟨p, hp, rfl⟩ := List.mem_map.mp hx
        exact hpos p hp
      · positivity
    · exact le_refl 0
  constructor
  · intro h0
    unfold riskReduction
    rw [h0]
    norm_num
  · intro hne
    have hlt : 0 < avgOriginalRisk riskScores := lt_of_le_of_ne havg (Ne.symm hne)
    unfold riskReduction
    rw [if_pos hlt]

/-- A sample risk score with overall_risk 50, for witnesses. -/
def riskFifty : RiskScore :=
  { overall_risk := 50
    uniqueness_score := 60
    reidentification_probability := 40
    home_inferred := true
    work_inferred := false
    unique_patterns := []
    min_points_to_identify := 3 }

/-- Closed instance of riskReduction_formula_C1: with one score of 50
and no anonymized result, the risk reduction equals the formula value. -/
theorem riskReduction_formula_C1_witness :
    riskReduction [("user_001", riskFifty)] none =
      (avgOriginalRisk [("user_001", riskFifty)] - avgAnonymizedRisk none) /
        avgOriginalRisk [("user_001", riskFifty)] * 100 :=
  (riskReduction_formula_C1 [("user_001", riskFifty)] none
    (by
      intro p hp
      simp only [List.mem_singleton] at hp
      subst hp
      norm_num [riskFifty])).2
    (by norm_num [avgOriginalRisk, riskFifty])

/-- Boolean timestamp comparison used for ordering points, the
comparator new Date(a.timestamp).getTime() - new Date(b.timestamp)
.getTime() in MapView expressed as a le test. -/
def tsLe (a b : LocationPoint) : Bool := decide (a.timestamp ≤ b.timestamp)

/-- The sort step of MapView: locations sorted by ascending timestamp
([...locations].sort on getTime values). -/
def sortByTimestamp (l : List LocationPoint) : List LocationPoint :=
  l.mergeSort tsLe

/-- The time-filter predicate of MapView: locTime >= start and
locTime <= end on the numeric timestamp value. -/
def inTimeRange (s e : ℤ) (loc : LocationPoint) : Bool :=
  decide (s ≤ loc.timestamp ∧ loc.timestamp ≤ e)

/-- The filter step of MapView: when a timeFilter is set, keep exactly
the points whose timestamp lies in the inclusive interval; otherwise
keep all points. -/
def filterByTime : Option (ℤ × ℤ) → List LocationPoint → List LocationPoint
  | none, locs => locs
  | some (s, e), locs => locs.filter (inTimeRange s e)

/-- The trajectory point list MapView derives for the selected user:
the user's locations run through the time filter and then sorted by
timestamp. -/
def trajectoryLocations (tf : Option (ℤ × ℤ)) (user : UserProfile) :
    List LocationPoint :=
  sortByTimestamp (filterByTime tf user.locations)

/-- A location list is chronological when its timestamps are pairwise
non-decreasing in list order. -/
def Chronological (l : List LocationPoint) : Prop :=
  l.Pairwise (fun a b => a.timestamp ≤ b.timestamp)

theorem chronological_bool {l : List LocationPoint} (h : Chronological l) :
    l.Pairwise (fun a b => tsLe a b = true) :=
  h.imp (by intro a b hab; simpa [tsLe] using hab)

/-- C4: for a user whose locations are chronological, the MapView
trajectory is exactly the user's points whose timestamp lies within the
inclusive filter interval (all points when no filter is set), and the
result is in non-decreasing timestamp order. -/
theorem mapView_trajectory_C4 (user : UserProfile) (s e : ℤ)
    (hchron : Chronological user.locations) :
    trajectoryLocations none user = user.locations ∧
    trajectoryLocations (some (s, e)) user =
      user.locations.filter (inTimeRange s e) ∧
    Chronological (trajectoryLocations (some (s, e)) user) := by
  have hfil : Chronological (user.locations.filter (inTimeRange s e)) :=
    hchron.filter _
  have hnone : trajectoryLocations none user = user.locations := by
    unfold trajectoryLocations filterByTime sortByTimestamp
    exact List.mergeSort_of_sorted (chronological_bool hchron)
  have hsome : trajectoryLocations (some (s, e)) user =
      user.locations.filter (inTimeRange s e) := by
    unfold trajectoryLocations filterByTime sortByTimestamp
    exact List.mergeSort_of_sorted (chronological_bool hfil)
  exact ⟨hnone, hsome, hsome ▸ hfil⟩

/-- A sample point at 51N 114W with timestamp 1. -/
def samplePointA : LocationPoint :=
  { lat := 51, lon := -114, timestamp := 1, location_type := some .home }

/-- A sample point with timestamp 5 and no location_type. -/
def samplePointB : LocationPoint :=
  { lat := 51.1, lon := -114.2, timestamp := 5, location_type := none }

/-- A sample user with two chronological points. -/
def sampleUser : UserProfile :=
  { user_id := "user_001", locations := [samplePointA, samplePointB] }

/-- Closed instance of mapView_trajectory_C4: the sample user's
locations are chronological and the unfiltered trajectory is the
location list itself. -/
theorem mapView_trajectory_C4_witness :
    Chronological sampleUser.locations ∧
    trajectoryLocations none sampleUser = sampleUser.locations := by
  have h : Chronological sampleUser.locations := by
    norm_num [Chronological, sampleUser, samplePointA, samplePointB,
      List.pairwise_cons]
  exact ⟨h, (mapView_trajectory_C4 sampleUser 0 24 h).1⟩

/-- The per-user risk lookup of UserSelector:
riskScores[user_id]?.overall_risk || 0, which on numeric scores is the
looked-up overall_risk with 0 for a missing entry (the || 0 fallback
maps the number 0 to itself). -/
def riskOf (riskScores : List (String × RiskScore)) (u : UserProfile) : ℚ :=
  match riskScores.lookup u.user_id with
  | some r => r.overall_risk
  | none => 0

/-- The comparator of UserSelector: riskB - riskA sorts users by
descending risk, expressed as a le test placing a before b when
riskOf b ≤ riskOf a. -/
def userSortLe (riskScores : List (String × RiskScore))
    (a b : UserProfile) : Bool :=
  decide (riskOf riskScores b ≤ riskOf riskScores a)

/-- The sorted copy rendered by UserSelector:
[...users].sort((a, b) => riskB - riskA). -/
def sortedUsers (riskScores : List (String × RiskScore))
    (users : List UserProfile) : List UserProfile :=
  users.mergeSort (userSortLe riskScores)

/-- C8: the user list rendered by UserSelector is a permutation of the
input users in non-increasing order of overall_risk, a user without a
risk entry counting as risk 0. -/
theorem userSelector_sorted_C8 (riskScores : List (String × RiskScore))
    (users : List UserProfile) :
    (sortedUsers riskScores users).Perm users ∧
    (sortedUsers riskScores users).Pairwise
      (fun a b => riskOf riskScores b ≤ riskOf riskScores a) := by
  constructor
  · exact List.mergeSort_perm users (userSortLe riskScores)
  · have htrans : ∀ a b c : UserProfile,
        userSortLe riskScores a b = true → userSortLe riskScores b c = true →
        userSortLe riskScores a c = true := by
      intro a b c hab hbc
      simp only [userSortLe, decide_eq_true_eq] at hab hbc ⊢
      exact le_trans hbc hab
    have htotal : ∀ a b : UserProfile,
        (userSortLe riskScores a b || userSortLe riskScores b a) = true := by
      intro a b
      simp only [userSortLe, Bool.or_eq_true, decide_eq_true_eq]
      exact le_total _ _
    exact (List.sorted_mergeSort htrans htotal users).imp
      (by intro a b hab; simpa [userSortLe] using hab)

/-- One slider configuration from the TECHNIQUES constant of
PrivacyControls. -/
structure TechniqueConfig where
  id : String
  param : String
  min : ℚ
  max : ℚ
  defaultValue : ℚ
  step : ℚ

/-- The k-anonymity entry of TECHNIQUES: k from 2 to 20 in steps of 1,
defaulting to 5. -/
def kAnonymityConfig : TechniqueConfig :=
  { id := "k-anonymity", param := "k",
    min := 2, max := 20, defaultValue := 5, step := 1 }

/-- The spatial-cloaking entry of TECHNIQUES: radius_meters from 50 to
1000 in steps of 50, defaulting to 200. -/
def spatialCloakingConfig : TechniqueConfig :=
  { id := "spatial-cloaking", param := "radius_meters",
    min := 50, max := 1000, defaultValue := 200, step := 50 }

/-- The differential-privacy entry of TECHNIQUES: epsilon from 0.1 to
2.0 in steps of 0.1, defaulting to 1.0. -/
def differentialPrivacyConfig : TechniqueConfig :=
  { id := "differential-privacy", param := "epsilon",
    min := 0.1, max := 2.0, defaultValue := 1.0, step := 0.1 }

/-- The TECHNIQUES constant of PrivacyControls. -/
def TECHNIQUES : List TechniqueConfig :=
  [kAnonymityConfig, spatialCloakingConfig, differentialPrivacyConfig]

/-- The documented valid parameter ranges from the README and spec:
k in [2,20], radius_meters in [50,5000], epsilon in [0.01,10.0]. -/
def validRange (param : String) : ℚ × ℚ :=
  if param = "k" then (2, 20)
  else if param = "radius_meters" then (50, 5000)
  else if param = "epsilon" then (1/100, 10)
  else (0, 0)

/-- C2: every value reachable by a PrivacyControls slider (its min plus
a whole number of steps, up to its max) lies within the documented valid
range for that technique's parameter; the UI never submits an
out-of-range value. -/
theorem slider_values_in_range_C2 (t : TechniqueConfig)
    (ht : t ∈ TECHNIQUES) (n : ℕ) (hle : t.min + n * t.step ≤ t.max) :
    (validRange t.param).1 ≤ t.min + n * t.step ∧
    t.min + n * t.step ≤ (validRange t.param).2 := by
  have hn : (0 : ℚ) ≤ (n : ℚ) := Nat.cast_nonneg n
  simp only [TECHNIQUES, List.mem_cons, List.not_mem_nil, or_false] at ht
  rcases ht with rfl | rfl | rfl
  · have hv : validRange kAnonymityConfig.param = (2, 20) := by decide
    rw [hv]
    simp only [kAnonymityConfig] at hle ⊢
    constructor <;> linarith
  · have hv : validRange spatialCloakingConfig.param = (50, 5000) := by decide
    rw [hv]
    simp only [spatialCloakingConfig] at hle ⊢
    constructor <;> linarith
  · have hparam : differentialPrivacyConfig.param = "epsilon" := rfl
    have hv : validRange "epsilon" = (1/100, 10) := by
      unfold validRange
      rw [if_neg (by decide), if_neg (by decide), if_pos rfl]
    rw [hparam, hv]
    simp only [differentialPrivacyConfig] at hle ⊢
    norm_num at hle ⊢
    constructor <;> linarith

/-- Closed instance of slider_values_in_range_C2: the k slider value
2 + 3 × 1 = 5 lies inside the documented range [2,20]. -/
theorem slider_values_in_range_C2_witness :
    (validRange kAnonymityConfig.param).1 ≤
      kAnonymityConfig.min + (3 : ℕ) * kAnonymityConfig.step ∧
    kAnonymityConfig.min + (3 : ℕ) * kAnonymityConfig.step ≤
      (validRange kAnonymityConfig.param).2 :=
  slider_values_in_range_C2 kAnonymityConfig (by simp [TECHNIQUES]) 3
    (by norm_num [kAnonymityConfig])

/-- Modelled from the spec: the backend AnonymizationEngine is not among
the available sources; §4.5 gives the k-anonymity grid size as
cellSizeDegrees = 0.002 + (k - 2) × 0.001. -/
def cellSizeDegrees (k : ℕ) : ℚ :=
  0.002 + ((k : ℚ) - 2) * 0.001

/-- Modelled from the spec: snapToGrid from §4.1, rounding a coordinate
to the nearest grid cell under the given cell size (the README says the
engine snaps every coordinate to the nearest grid cell). -/
def snapToGrid (cellSize x : ℚ) : ℚ :=
  ((round (x / cellSize) : ℤ) : ℚ) * cellSize

/-- Modelled from the spec: the per-point k-anonymity transform replaces
lat and lon by their grid-snapped values and preserves timestamp and
location_type (§4.5 output reconstruction). -/
def anonymizePoint (cellSize : ℚ) (p : LocationPoint) : LocationPoint :=
  { p with lat := snapToGrid cellSize p.lat, lon := snapToGrid cellSize p.lon }

/-- Modelled from the spec: the k-anonymity branch of the
AnonymizationEngine, lifted over all users and points of a Dataset.
Following §9 the engine's randomness is an injected random source,
modelled as a stream of coordinate offsets; the k-anonymity branch of
§4.5 draws nothing from it. -/
def kAnonymityTransform (rng : ℕ → ℚ × ℚ) (d : Dataset) (k : ℕ) : Dataset :=
  { d with
    users := d.users.map (fun u =>
      { u with
        locations := u.locations.map (anonymizePoint (cellSizeDegrees k)) }) }

/-- C6: for every k in [2,20], two calls of the k-anonymity transform on
the identical Dataset and identical k produce identical output
coordinates whatever the injected random source supplies: the transform
uses no randomness. -/
theorem kAnonymity_deterministic_C6 (k : ℕ) (hk2 : 2 ≤ k) (hk20 : k ≤ 20)
    (d : Dataset) (rngA rngB : ℕ → ℚ × ℚ) :
    kAnonymityTransform rngA d k = kAnonymityTransform rngB d k := rfl

/-- A constant random source supplying zero offsets. -/
def rngZero : ℕ → ℚ × ℚ := fun _ => (0, 0)

/-- A constant random source supplying unit offsets. -/
def rngOne : ℕ → ℚ × ℚ := fun _ => (1, 1)

/-- A one-user sample dataset for witnesses. -/
def sampleDataset : Dataset :=
  { users := [sampleUser], generated_at := "2024-01-01T00:00:00Z",
    city := "Calgary" }

/-- Closed instance of kAnonymity_deterministic_C6 at k = 5 on the
sample dataset, with two different random sources. -/
theorem kAnonymity_deterministic_C6_witness :
    kAnonymityTransform rngZero sampleDataset 5 =
      kAnonymityTransform rngOne sampleDataset 5 :=
  kAnonymity_deterministic_C6 5 (by norm_num) (by norm_num)
    sampleDataset rngZero rngOne

/-- The query parameters generateDataset in api.ts appends to the
generate-dataset request, modelled as the optional values present in
the URLSearchParams. -/
structure GenerateParams where
  num_users : Option ℚ
  refresh : Option String
deriving DecidableEq

/-- buildGenerateParams embeds the parameter construction of
generateDataset in api.ts: num_users is appended under the JavaScript
truthiness test if (numUsers), so a provided value of 0 is dropped, and
refresh is appended as the string "true" under if (refresh). -/
def buildGenerateParams (numUsers : Option ℚ) (refresh : Option Bool) :
    GenerateParams :=
  { num_users :=
      match numUsers with
      | some n => if n = 0 then none else some n
      | none => none
    refresh :=
      match refresh with
      | some true => some "true"
      | _ => none }

/-- C7 counterexample: it is not the case that the num_users query
parameter equals numUsers exactly when numUsers is provided; at
numUsers = 0 the parameter is provided yet not sent, because the guard
if (numUsers) tests JavaScript truthiness. -/
theorem generateDataset_params_C7_counterexample :
    ¬ ∀ (nu : Option ℚ) (r : Option Bool),
        (buildGenerateParams nu r).num_users = nu := by
  intro h
  have h0 := h (some 0) none
  simp [buildGenerateParams] at h0

/-- C7 (amended): the num_users query parameter is sent, equal to
numUsers, exactly when numUsers is provided and nonzero (truthy); a
missing or zero numUsers sends no num_users parameter; and
refresh="true" is sent exactly when refresh is provided as true. -/
theorem generateDataset_params_C7 (nu : Option ℚ) (r : Option Bool) :
    (∀ n : ℚ, nu = some n → n ≠ 0 →
      (buildGenerateParams nu r).num_users = some n) ∧
    (nu = none ∨ nu = some 0 →
      (buildGenerateParams nu r).num_users = none) ∧
    ((buildGenerateParams nu r).refresh = some "true" ↔ r = some true) := by
  refine ⟨?_, ?_, ?_⟩
  · rintro n rfl hn
    simp [buildGenerateParams, hn]
  · rintro (rfl | rfl) <;> simp [buildGenerateParams]
  · rcases r with _ | b
    · simp [buildGenerateParams]
    · cases b <;> simp [buildGenerateParams]

/-- Closed instance of generateDataset_params_C7: numUsers = 40 is
provided and nonzero, so num_users = 40 is sent. -/
theorem generateDataset_params_C7_witness :
    (buildGenerateParams (some 40) (some true)).num_users = some 40 :=
  (generateDataset_params_C7 (some 40) (some true)).1 40 rfl (by norm_num)

end LocationPrivacy
